import Mathlib

/-
Verification of the geometric jam/section matching engine of
`src/data/processing_func.py` (Joinville Smart Mobility).

Shallow embedding conventions:
* Coordinates are modelled as exact rationals (the source uses Python floats;
  every operation the claims depend on — subtraction, `abs`, comparison,
  `min`/`max` — is exact on the float inputs involved, so ℚ is a faithful
  model on the reachable values).
* pandas/geopandas dataframes become lists of records; a spatial `sjoin`
  becomes an explicit nested iteration; the `how="left"` + `dropna` pattern
  of the source is split into the kept inner pairs and the separately
  computed list of unmatched ids (exactly what the source extracts from the
  null rows).
* shapely buffer polygons are not re-implemented; a buffer is represented
  symbolically by the pair (polyline, radius) and the three geometric
  predicates used by the source (`contains`, `within`, `intersects`) are
  parameters of the pipeline (`GeoPredicates`).  Which polyline and which
  radius each tier feeds to each predicate is exactly what the claims about
  tier structure are about, and is modelled faithfully.
* the pyproj UTM projection is an opaque-by-parameter point map
  `proj : Coord → Coord` (`lon_lat_to_UTM` maps it over the list, as the
  source loops `proj(lon, lat)` over the tuples).
* Python exceptions are modelled by explicit outcome constructors
  (`DirResult.indexError` for the uncaught `IndexError` of
  `get_direction` on an empty sequence, `DirResult.nullPair` for the
  `except:` branch value `pd.Series([None, None])` taken when `len(...)`
  itself raises, e.g. on a null / non-sequence column value).
-/

namespace Joinville

/-- A coordinate pair.  Jam input coordinates come as `{"x": lon, "y": lat}`
dictionaries; section coordinates as explicit UTM x/y columns. -/
structure Coord where
  x : ℚ
  y : ℚ
  deriving DecidableEq, Repr

/-- Outcome of `get_direction` (source lines 337-368).
`nullPair` is the `except:` branch returning `pd.Series([None, None])`
(taken when the argument has no `len`, e.g. a null column value);
`indexError` is the uncaught `IndexError` raised by `coord_list[0]` on an
empty sequence (the `try` covers only the `len` call);
`dirs` is the normal `pd.Series([lon_direction, lat_direction,
major_direction])`. -/
inductive DirResult where
  | nullPair : DirResult
  | indexError : DirResult
  | dirs (lon lat major : String) : DirResult
  deriving DecidableEq, Repr

/-- `get_direction` of the source (lines 337-368): classifies an ordered
coordinate sequence by the net displacement between its first and last
points.  `none` models a column value on which `len()` raises. -/
def get_direction : Option (List Coord) → DirResult
  | none => DirResult.nullPair
  | some [] => DirResult.indexError
  | some (c :: cs) =>
    let lastc := (c :: cs).getLast (List.cons_ne_nil c cs)
    let delta_y := lastc.y - c.y
    let lat_direction := if delta_y ≥ 0 then "Norte" else "Sul"
    let delta_x := lastc.x - c.x
    let lon_direction := if delta_x ≥ 0 then "Leste" else "Oeste"
    let major_direction := if |delta_y| > |delta_x| then "Norte/Sul" else "Leste/Oeste"
    DirResult.dirs lon_direction lat_direction major_direction

/-- The `MajorDirection` column value produced from a `get_direction`
result; `none` models a missing / NaN entry (Python `NaN == s` is false for
every string, matching `Option` disequality against `some s`). -/
def majorOf : DirResult → Option String
  | DirResult.dirs _ _ major => some major
  | _ => none

/-- `get_main_direction` of `extract_geo_sections` (source lines 241-247):
classifies a bounding box; note the tie `delta_y = delta_x` falls to
"Norte/Sul" here (`>=`), unlike the strict `>` of `get_direction`. -/
def get_main_direction (minX maxX minY maxY : ℚ) : String :=
  let delta_x := maxX - minX
  let delta_y := maxY - minY
  if delta_y ≥ delta_x then "Norte/Sul" else "Leste/Oeste"

/-- One row of the `Section` table: id, street name, and the three
characteristic UTM points (start / middle / end). -/
structure SectionRow where
  SctnId : Nat
  SctnDscNome : String
  xComeco : ℚ
  yComeco : ℚ
  xMeio : ℚ
  yMeio : ℚ
  xFinal : ℚ
  yFinal : ℚ
  deriving DecidableEq, Repr

/-- `MinX` column (source lines 253-256): min of the three x coordinates. -/
def sectionMinX (s : SectionRow) : ℚ := min s.xComeco (min s.xMeio s.xFinal)

/-- `MaxX` column (source lines 258-261). -/
def sectionMaxX (s : SectionRow) : ℚ := max s.xComeco (max s.xMeio s.xFinal)

/-- `MinY` column (source lines 263-266). -/
def sectionMinY (s : SectionRow) : ℚ := min s.yComeco (min s.yMeio s.yFinal)

/-- `MaxY` column (source lines 268-271). -/
def sectionMaxY (s : SectionRow) : ℚ := max s.yComeco (max s.yMeio s.yFinal)

/-- `SectionDirection` column (source line 284): `get_main_direction` of the
section's own three-point bounding box. -/
def sectionDirection (s : SectionRow) : String :=
  get_main_direction (sectionMinX s) (sectionMaxX s) (sectionMinY s) (sectionMaxY s)

/-- `StreetDirection` column (source lines 274-281): `get_main_direction`
of the aggregate bounding box of all sections sharing the street name.
The fold is seeded with the section's own values; since the section itself
belongs to its group whenever it belongs to `rows`, this equals the
`groupby("SctnDscNome").agg(min/max)` of the source (duplicating one group
element changes no min/max). -/
def streetDirection (rows : List SectionRow) (s : SectionRow) : String :=
  let grp := rows.filter (fun r => r.SctnDscNome == s.SctnDscNome)
  get_main_direction
    ((grp.map sectionMinX).foldl min (sectionMinX s))
    ((grp.map sectionMaxX).foldl max (sectionMaxX s))
    ((grp.map sectionMinY).foldl min (sectionMinY s))
    ((grp.map sectionMaxY).foldl max (sectionMaxY s))

/-- A buffer polygon, represented symbolically as (base polyline, radius):
the result of `LineString(line).buffer(radius)` in the source. -/
abbrev Buffer := List Coord × ℚ

/-- A geometric section row as produced by `extract_geo_sections`
(source lines 239-300). -/
structure GeoSection where
  SctnId : Nat
  SctnDscNome : String
  StreetDirection : String
  SectionDirection : String
  section_LineString : Buffer
  section_alt_LineString : Buffer
  deriving DecidableEq, Repr

/-- `Street_line_XY` column (source lines 287-290): the three-point
polyline of a section. -/
def street_line_XY (s : SectionRow) : List Coord :=
  [⟨s.xComeco, s.yComeco⟩, ⟨s.xMeio, s.yMeio⟩, ⟨s.xFinal, s.yFinal⟩]

/-- `extract_geo_sections` (source lines 239-300): derives per-section and
per-street directions and both buffer polygons.  `store_jps` calls it with
`main_buffer=10` (thin) and `alt_buffer=20` (fat). -/
def extract_geo_sections (rows : List SectionRow) (main_buffer alt_buffer : ℚ) :
    List GeoSection :=
  rows.map fun s =>
    { SctnId := s.SctnId
      SctnDscNome := s.SctnDscNome
      StreetDirection := streetDirection rows s
      SectionDirection := sectionDirection s
      section_LineString := (street_line_XY s, main_buffer)
      section_alt_LineString := (street_line_XY s, alt_buffer) }

/-- One row of the `Jam` table, restricted to the columns the matcher
reads. -/
structure JamRow where
  JamId : Nat
  JamDateStart : Nat
  JamUuid : Nat
  JamDscCoordinatesLonLat : List Coord
  deriving DecidableEq, Repr

/-- `lon_lat_to_UTM` (source lines 213-224): applies the fixed projection
point-wise over the coordinate list.  The projection itself (pyproj) is an
external numeric routine and is passed in as the parameter `proj`. -/
def lon_lat_to_UTM (proj : Coord → Coord) (l : List Coord) : List Coord :=
  l.map proj

/-- A geometric jam row as produced by `extract_geo_jams`
(source lines 302-316). -/
structure GeoJam where
  JamId : Nat
  JamDateStart : Nat
  JamUuid : Nat
  jam_LineString : Buffer
  jam_alt_LineString : Buffer
  MajorDirection : Option String
  deriving DecidableEq, Repr

/-- Geometry construction for one jam row (the per-row body of
`extract_geo_jams`, source lines 306-310): project the coordinates, build
the two buffers, classify the direction of the raw geographic sequence. -/
def mkGeoJam (proj : Coord → Coord) (main_buffer alt_buffer : ℚ) (r : JamRow) : GeoJam :=
  { JamId := r.JamId
    JamDateStart := r.JamDateStart
    JamUuid := r.JamUuid
    jam_LineString := (lon_lat_to_UTM proj r.JamDscCoordinatesLonLat, main_buffer)
    jam_alt_LineString := (lon_lat_to_UTM proj r.JamDscCoordinatesLonLat, alt_buffer)
    MajorDirection := majorOf (get_direction (some r.JamDscCoordinatesLonLat)) }

/-- The `ORDER BY JamDateStart` of the jam query (source line 304),
modelled as a deterministic stable sort. -/
def sortJams (rows : List JamRow) : List JamRow :=
  rows.mergeSort (fun a b => a.JamDateStart ≤ b.JamDateStart)

/-- `extract_geo_jams` (source lines 302-316): one page of jams, in
ascending `JamDateStart` order, via offset/limit, with geometry built per
row.  `store_jps` calls it with `main_buffer=20` (fat) and `alt_buffer=10`
(thin) — note the swap relative to the sections. -/
def extract_geo_jams (proj : Coord → Coord) (rows : List JamRow)
    (skip limit : Nat) (main_buffer alt_buffer : ℚ) : List GeoJam :=
  (((sortJams rows).drop skip).take limit).map (mkGeoJam proj main_buffer alt_buffer)

/-- The three geometric predicates evaluated by `gpd.sjoin` in `store_jps`.
Each takes the buffer of the LEFT dataframe row first (for `op="contains"`
/ `op="within"` / `op="intersects"`, geopandas tests `left.contains(right)`
etc.).  They are parameters of the pipeline: shapely's numeric polygon
computations are outside the embedding, but which buffer goes to which
argument is modelled exactly. -/
structure GeoPredicates where
  contains : Buffer → Buffer → Bool
  within : Buffer → Buffer → Bool
  intersects : Buffer → Buffer → Bool

/-- `check_directions` of `store_jps` (source lines 155-165): a jam/section
pair passes when the jam's `MajorDirection` equals the section's
`StreetDirection` or its `SectionDirection`.  The jam's entry is an
`Option` (a NaN `MajorDirection` compares unequal to every string, as in
pandas). -/
def check_directions (majorDirection : Option String)
    (streetDirection sectionDirection : String) : Bool :=
  if majorDirection = some streetDirection then true
  else if majorDirection = some sectionDirection then true
  else false

/-- Tier A (source line 178): `gpd.sjoin(geo_jams, geo_sections,
how="left", op="contains")`, restricted to the kept (non-null) pairs — the
jam's active geometry `jam_LineString` contains the section's active
geometry `section_LineString`. -/
def jams_per_section_contains (P : GeoPredicates) (jams : List GeoJam)
    (secs : List GeoSection) : List (GeoJam × GeoSection) :=
  jams.flatMap fun j => secs.filterMap fun s =>
    if P.contains j.jam_LineString s.section_LineString then some (j, s) else none

/-- `ids_not_located_contains` (source line 179): the `JamId`s of the rows
of the left join whose `SctnId` is null, i.e. of the jams with no Tier A
match. -/
def ids_not_located_contains (P : GeoPredicates) (jams : List GeoJam)
    (secs : List GeoSection) : List Nat :=
  (jams.filter fun j =>
    secs.all fun s => !P.contains j.jam_LineString s.section_LineString).map GeoJam.JamId

/-- `jams_left_from_contains` (source lines 183-185): the rows of
`geo_jams` whose `JamId` is in `ids_not_located_contains` (pandas
`.isin`); their active geometry becomes `jam_alt_LineString`. -/
def jams_left_from_contains (P : GeoPredicates) (jams : List GeoJam)
    (secs : List GeoSection) : List GeoJam :=
  jams.filter fun j => decide (j.JamId ∈ ids_not_located_contains P jams secs)

/-- Tier B (source line 188): `gpd.sjoin(jams_left_from_contains,
geo_sections, how="left", op="within")` with the section geometry switched
to `section_alt_LineString`, restricted to the kept pairs — the jam's
`jam_alt_LineString` lies within the section's `section_alt_LineString`. -/
def jams_per_section_within (P : GeoPredicates) (jams : List GeoJam)
    (secs : List GeoSection) : List (GeoJam × GeoSection) :=
  (jams_left_from_contains P jams secs).flatMap fun j => secs.filterMap fun s =>
    if P.within j.jam_alt_LineString s.section_alt_LineString then some (j, s) else none

/-- `ids_not_located_within` (source line 189): jams of the Tier B pool
with no Tier B match. -/
def ids_not_located_within (P : GeoPredicates) (jams : List GeoJam)
    (secs : List GeoSection) : List Nat :=
  ((jams_left_from_contains P jams secs).filter fun j =>
    secs.all fun s => !P.within j.jam_alt_LineString s.section_alt_LineString).map GeoJam.JamId

/-- `jams_left_from_within` (source line 194): rows selected from
`geo_jams` — whose active geometry is still `jam_LineString`, the buffer
built with `main_buffer=20` — by `.isin(ids_not_located_within)`. -/
def jams_left_from_within (P : GeoPredicates) (jams : List GeoJam)
    (secs : List GeoSection) : List GeoJam :=
  jams.filter fun j => decide (j.JamId ∈ ids_not_located_within P jams secs)

/-- Tier C (source lines 195-198): `gpd.sjoin(jams_left_from_within,
geo_sections, how="inner", op="intersects")` with the section geometry
back to `section_LineString`, then filtered by `check_directions`.  The
jam side evaluates `jam_LineString` (the radius-20 buffer), because
`jams_left_from_within` is sliced from `geo_jams`, whose active geometry
was never changed. -/
def jams_per_section_intersects (P : GeoPredicates) (jams : List GeoJam)
    (secs : List GeoSection) : List (GeoJam × GeoSection) :=
  ((jams_left_from_within P jams secs).flatMap fun j => secs.filterMap fun s =>
    if P.intersects j.jam_LineString s.section_LineString then some (j, s) else none).filter
    fun js => check_directions js.1.MajorDirection js.2.StreetDirection js.2.SectionDirection

/-- One row of the `JamPerSection` output relation (source line 206). -/
structure JamPerSectionRow where
  JamDateStart : Nat
  JamUuid : Nat
  SctnId : Nat
  deriving DecidableEq, Repr

/-- Projection of an accepted pair onto the stored output columns
(source line 206). -/
def toJamPerSection (js : GeoJam × GeoSection) : JamPerSectionRow :=
  { JamDateStart := js.1.JamDateStart, JamUuid := js.1.JamUuid, SctnId := js.2.SctnId }

/-- The per-batch body of `store_jps` (source lines 174-208): the three
tier outputs concatenated (source lines 201-203) and projected onto the
output columns. -/
def store_batch (P : GeoPredicates) (jams : List GeoJam) (secs : List GeoSection) :
    List JamPerSectionRow :=
  (jams_per_section_contains P jams secs ++ jams_per_section_within P jams secs ++
    jams_per_section_intersects P jams secs).map toJamPerSection

/-- `math.ceil(total_rows / batch_size)` (source line 171), for
`batch_size ≥ 1`. -/
def number_batches (total_rows batch_size : Nat) : Nat :=
  (total_rows + batch_size - 1) / batch_size

/-- `store_jps` (source lines 154-211): load the section set once with
`main_buffer=10`, `alt_buffer=20` (line 167); page the jams by
offset/limit with `main_buffer=20`, `alt_buffer=10` (line 175); run the
three-tier cascade per page; concatenate (append to `JamPerSection`) the
per-page outputs.  Note `geo_sections`' active geometry is restored to
`section_LineString` by line 193 before each next iteration, so every page
sees the same section frame. -/
def store_jps (P : GeoPredicates) (proj : Coord → Coord)
    (sectionRows : List SectionRow) (jamRows : List JamRow)
    (batch_size : Nat) : List JamPerSectionRow :=
  let geo_sections := extract_geo_sections sectionRows 10 20
  let total_rows := jamRows.length
  (List.range (number_batches total_rows batch_size)).flatMap fun i =>
    store_batch P (extract_geo_jams proj jamRows (i * batch_size) batch_size 20 10)
      geo_sections

/-- A jam has no Tier A match: no section whose `section_LineString` its
`jam_LineString` contains.  This is the row condition under which a jam's
id enters `ids_not_located_contains`. -/
def noAmatch (P : GeoPredicates) (secs : List GeoSection) (j : GeoJam) : Bool :=
  secs.all fun s => !P.contains j.jam_LineString s.section_LineString

/-- A jam has no Tier B match: its `jam_alt_LineString` lies within no
section's `section_alt_LineString`. -/
def noBmatch (P : GeoPredicates) (secs : List GeoSection) (j : GeoJam) : Bool :=
  secs.all fun s => !P.within j.jam_alt_LineString s.section_alt_LineString

/-- The accepted pairs a single jam contributes across the three tiers:
its Tier A pairs; its Tier B pairs when it had no Tier A match; its
direction-filtered Tier C pairs when it had neither.  `store_batch` is a
permutation of the per-jam concatenation of these (given distinct jam
ids), which is what makes the batch pipeline page-independent. -/
def perJamPairs (P : GeoPredicates) (secs : List GeoSection) (j : GeoJam) :
    List (GeoJam × GeoSection) :=
  (secs.filterMap fun s =>
    if P.contains j.jam_LineString s.section_LineString then some (j, s) else none) ++
  (if noAmatch P secs j then
    secs.filterMap fun s =>
      if P.within j.jam_alt_LineString s.section_alt_LineString then some (j, s) else none
  else []) ++
  (if noAmatch P secs j && noBmatch P secs j then
    (secs.filterMap fun s =>
      if P.intersects j.jam_LineString s.section_LineString then some (j, s) else none).filter
      fun js => check_directions js.1.MajorDirection js.2.StreetDirection js.2.SectionDirection
  else [])

/-- Per-jam output rows (the per-jam pairs projected onto the stored
columns). -/
def perJam (P : GeoPredicates) (secs : List GeoSection) (j : GeoJam) :
    List JamPerSectionRow :=
  (perJamPairs P secs j).map toJamPerSection

section ConcreteInstances

/-
Concrete instances used by counterexamples and witnesses.  Each predicate
instantiation is geometrically realizable; the realizing geometry is noted
at each definition.
-/

/-- A long straight jam along the x axis (for the Tier A counterexample):
its radius-20 buffer contains the radius-10 buffer of the short collinear
section below. -/
def jamRowA : JamRow :=
  { JamId := 1, JamDateStart := 0, JamUuid := 11,
    JamDscCoordinatesLonLat := [⟨-100, 0⟩, ⟨100, 0⟩] }

/-- The geometric jam `store_jps` builds from `jamRowA` (identity
projection; `main_buffer=20`, `alt_buffer=10` as at source line 175). -/
def jamA : GeoJam := mkGeoJam id 20 10 jamRowA

/-- A short section lying inside the span of `jamRowA`. -/
def secRowA : SectionRow := ⟨5, "Rua XV", 0, 0, 5, 0, 10, 0⟩

/-- The geometric section `store_jps` builds from `secRowA`
(`main_buffer=10`, `alt_buffer=20` as at source line 167). -/
def secA : GeoSection :=
  { SctnId := 5, SctnDscNome := "Rua XV",
    StreetDirection := "Leste/Oeste", SectionDirection := "Leste/Oeste",
    section_LineString := ([⟨0, 0⟩, ⟨5, 0⟩, ⟨10, 0⟩], 10),
    section_alt_LineString := ([⟨0, 0⟩, ⟨5, 0⟩, ⟨10, 0⟩], 20) }

/-- Geometric predicate valuation for the Tier A counterexample: the
radius-20 jam buffer of `jamA` contains the radius-10 section buffer of
`secA` (a 200 m corridor of half-width 20 around y=0 contains the 10 m
sausage around the sub-segment (0,0)-(10,0)); every other containment —
in particular the section's thin buffer containing the jam's fat buffer —
is false. -/
def P_A : GeoPredicates :=
  { contains := fun a b => decide (a = jamA.jam_LineString ∧ b = secA.section_LineString)
    within := fun _ _ => false
    intersects := fun _ _ => false }

/-- A jam running North/South at x=25 (for the Tier C buffer evaluation):
at planar distance 25 from the section `secRowC` at x=0, so the two thin
(radius-10) buffers are disjoint (gap 5) while the fat (radius-20) jam
buffer meets the thin section buffer (overlap 5). -/
def jamRowC : JamRow :=
  { JamId := 7, JamDateStart := 3, JamUuid := 70,
    JamDscCoordinatesLonLat := [⟨25, -50⟩, ⟨25, 50⟩] }

/-- The geometric jam of `jamRowC` (`main_buffer=20`, `alt_buffer=10`). -/
def jamC : GeoJam := mkGeoJam id 20 10 jamRowC

/-- A section running North/South along x=0. -/
def secRowC : SectionRow := ⟨9, "Rua das Palmeiras", 0, -50, 0, 0, 0, 50⟩

/-- The geometric section of `secRowC` (`main_buffer=10`,
`alt_buffer=20`). -/
def secC : GeoSection :=
  { SctnId := 9, SctnDscNome := "Rua das Palmeiras",
    StreetDirection := "Norte/Sul", SectionDirection := "Norte/Sul",
    section_LineString := ([⟨0, -50⟩, ⟨0, 0⟩, ⟨0, 50⟩], 10),
    section_alt_LineString := ([⟨0, -50⟩, ⟨0, 0⟩, ⟨0, 50⟩], 20) }

/-- Geometric predicate valuation for the parallel-at-distance-25 layout:
intersection holds exactly between the jam's radius-20 buffer and the
section's radius-10 buffer (25 < 20 + 10) and for no other pairing —
in particular not between the two radius-10 buffers (25 > 10 + 10); no
containment or within holds (the buffers only partially overlap). -/
def P_C : GeoPredicates :=
  { contains := fun _ _ => false
    within := fun _ _ => false
    intersects := fun a b =>
      decide (a = jamC.jam_LineString ∧ b = secC.section_LineString) }

/-- A minimal jam for the tier-partition witness. -/
def jamW : GeoJam := mkGeoJam id 20 10 ⟨2, 1, 20, [⟨0, 0⟩, ⟨1, 0⟩]⟩

/-- First of two sections the witness jam matches in Tier A. -/
def secW1 : GeoSection :=
  { SctnId := 1, SctnDscNome := "R1",
    StreetDirection := "Leste/Oeste", SectionDirection := "Leste/Oeste",
    section_LineString := ([⟨0, 0⟩, ⟨1, 0⟩, ⟨2, 0⟩], 10),
    section_alt_LineString := ([⟨0, 0⟩, ⟨1, 0⟩, ⟨2, 0⟩], 20) }

/-- Second of two sections the witness jam matches in Tier A. -/
def secW2 : GeoSection :=
  { SctnId := 2, SctnDscNome := "R2",
    StreetDirection := "Leste/Oeste", SectionDirection := "Leste/Oeste",
    section_LineString := ([⟨0, 0⟩, ⟨0, 1⟩, ⟨0, 2⟩], 10),
    section_alt_LineString := ([⟨0, 0⟩, ⟨0, 1⟩, ⟨0, 2⟩], 20) }

/-- Predicates for the tier-partition witness: everything contains
everything (a degenerate but realizable valuation on one jam whose fat
buffer covers both tiny sections). -/
def P_W : GeoPredicates :=
  { contains := fun _ _ => true
    within := fun _ _ => false
    intersects := fun _ _ => false }

/-- A jam row for the Tier B witness: a short jam just east of section
`secRowB`, inside its fat buffer but not containing its thin buffer. -/
def jamRowB : JamRow :=
  { JamId := 4, JamDateStart := 2, JamUuid := 40,
    JamDscCoordinatesLonLat := [⟨5, 0⟩, ⟨5, 30⟩] }

/-- The geometric jam of `jamRowB`. -/
def jamB : GeoJam := mkGeoJam id 20 10 jamRowB

/-- Section row for the Tier B witness: runs North/South along x=0,
long enough that its radius-20 buffer swallows the thin buffer of
`jamRowB` (offset 5). -/
def secRowB : SectionRow := ⟨3, "Rua Blumenau", 0, -40, 0, 0, 0, 40⟩

/-- The geometric section of `secRowB`. -/
def secB : GeoSection :=
  { SctnId := 3, SctnDscNome := "Rua Blumenau",
    StreetDirection := "Norte/Sul", SectionDirection := "Norte/Sul",
    section_LineString := ([⟨0, -40⟩, ⟨0, 0⟩, ⟨0, 40⟩], 10),
    section_alt_LineString := ([⟨0, -40⟩, ⟨0, 0⟩, ⟨0, 40⟩], 20) }

/-- Predicates for the Tier B witness: the jam's radius-10 buffer lies
within the section's radius-20 buffer (offset 5 + jam half-width 10 ≤ 20
along the section's span); nothing contains anything at Tier A. -/
def P_B : GeoPredicates :=
  { contains := fun _ _ => false
    within := fun a b =>
      decide (a = jamB.jam_alt_LineString ∧ b = secB.section_alt_LineString)
    intersects := fun _ _ => false }

/-- First jam row of the pagination-invariance witness dataset. -/
def jamRowP1 : JamRow :=
  { JamId := 31, JamDateStart := 5, JamUuid := 310,
    JamDscCoordinatesLonLat := [⟨0, 0⟩, ⟨1, 2⟩] }

/-- Second jam row of the pagination-invariance witness dataset. -/
def jamRowP2 : JamRow :=
  { JamId := 32, JamDateStart := 4, JamUuid := 320,
    JamDscCoordinatesLonLat := [⟨3, 0⟩, ⟨0, 1⟩] }

/-- Third jam row of the pagination-invariance witness dataset. -/
def jamRowP3 : JamRow :=
  { JamId := 33, JamDateStart := 6, JamUuid := 330,
    JamDscCoordinatesLonLat := [⟨2, 2⟩, ⟨5, 5⟩] }

/-- Section row for the pagination-invariance witness. -/
def secRowP : SectionRow := ⟨21, "Rua do Porto", 0, 0, 1, 1, 2, 0⟩

end ConcreteInstances

section DirectionTheorems

/-- Normal form of `get_direction` on a sequence of length ≥ 2 (every such
sequence is `first :: mid ++ [last]`): shared computation lemma. -/
theorem get_direction_eq (a b : Coord) (mid : List Coord) :
    get_direction (some (a :: (mid ++ [b]))) =
      DirResult.dirs
        (if b.x - a.x ≥ 0 then "Leste" else "Oeste")
        (if b.y - a.y ≥ 0 then "Norte" else "Sul")
        (if |b.y - a.y| > |b.x - a.x| then "Norte/Sul" else "Leste/Oeste") := by
  have hlast : (a :: (mid ++ [b])).getLast (List.cons_ne_nil _ _) = b := by simp
  simp only [get_direction, hlast]

/-- Claim C7 (confirmed): on every coordinate sequence of length at least
two, `get_direction` returns lat direction "Norte" (North) exactly when
`last.y - first.y ≥ 0` (else "Sul"/South), lon direction "Leste" (East)
exactly when `last.x - first.x ≥ 0` (else "Oeste"/West), and major
direction "Norte/Sul" (North/South) exactly when `|delta_y| > |delta_x|`
(so an exact tie yields "Leste/Oeste", East/West). -/
theorem get_direction_formulas (a b : Coord) (mid : List Coord) :
    get_direction (some (a :: (mid ++ [b]))) =
      DirResult.dirs
        (if b.x - a.x ≥ 0 then "Leste" else "Oeste")
        (if b.y - a.y ≥ 0 then "Norte" else "Sul")
        (if |b.y - a.y| > |b.x - a.x| then "Norte/Sul" else "Leste/Oeste") :=
  get_direction_eq a b mid

/-- Claim C2 (counterexample): the claim "every coordinate sequence of
length < 2 yields a null direction result instead of a fatal error" fails:
on the empty sequence `get_direction` raises an uncaught `IndexError`
(only the `len` call sits inside the `try`), and on a one-point sequence
it returns ordinary defined directions, not a null result. -/
theorem get_direction_degenerate_counterexample :
    get_direction (some ([] : List Coord)) = DirResult.indexError ∧
    DirResult.indexError ≠ DirResult.nullPair ∧
    get_direction (some [(⟨3, 4⟩ : Coord)]) =
      DirResult.dirs "Leste" "Norte" "Leste/Oeste" ∧
    DirResult.dirs "Leste" "Norte" "Leste/Oeste" ≠ DirResult.nullPair := by
  refine ⟨rfl, by decide, ?_, by decide⟩
  simp [get_direction]

/-- Claim C2 (amended, proved): `get_direction` returns the null result
`pd.Series([None, None])` only when the argument has no length (e.g. a
null column value); an empty coordinate sequence raises an uncaught
`IndexError` (fatal), and a one-point sequence returns the defined
directions ("Leste", "Norte", "Leste/Oeste") computed from its zero net
displacement. -/
theorem get_direction_degenerate_behavior :
    get_direction none = DirResult.nullPair ∧
    get_direction (some ([] : List Coord)) = DirResult.indexError ∧
    ∀ p : Coord, get_direction (some [p]) =
      DirResult.dirs "Leste" "Norte" "Leste/Oeste" := by
  refine ⟨rfl, rfl, fun p => ?_⟩
  simp [get_direction]

/-- Claim C3 (counterexample): the claim "direction classification,
including the section (and street) classification of reference geometry,
depends only on the polyline's first and last points" fails: two sections
with identical first and last characteristic points but different middle
points get different `SectionDirection`s, because `get_main_direction`
works on the bounding box of all three points. -/
theorem section_direction_midpoint_counterexample :
    sectionDirection ⟨1, "A", 0, 0, 5, 100, 10, 0⟩ = "Norte/Sul" ∧
    sectionDirection ⟨1, "A", 0, 0, 5, 0, 10, 0⟩ = "Leste/Oeste" ∧
    streetDirection [⟨1, "A", 0, 0, 5, 100, 10, 0⟩] ⟨1, "A", 0, 0, 5, 100, 10, 0⟩
      = "Norte/Sul" ∧
    streetDirection [⟨1, "A", 0, 0, 5, 0, 10, 0⟩] ⟨1, "A", 0, 0, 5, 0, 10, 0⟩
      = "Leste/Oeste" := by
  refine ⟨?_, ?_, ?_, ?_⟩ <;>
    norm_num [sectionDirection, streetDirection, get_main_direction, sectionMinX,
      sectionMaxX, sectionMinY, sectionMaxY, min_def, max_def, List.filter]

/-- Claim C3 (amended, proved): the jam direction classification
`get_direction` (hence `major_direction`) of a polyline of length ≥ 2
depends only on its first and last points — any change of the intermediate
points leaves the whole result unchanged.  (The section/street
classifications are bounding-box based and are NOT intermediate-point
independent; see the counterexample.) -/
theorem get_direction_first_last_only (a b : Coord) (mid mid' : List Coord) :
    get_direction (some (a :: (mid ++ [b]))) =
      get_direction (some (a :: (mid' ++ [b]))) := by
  rw [get_direction_eq, get_direction_eq]

/-- Claim C10 (confirmed): the tie-break rules of the two classifiers
differ: a square bounding box (`MaxX - MinX = MaxY - MinY`) is classified
"Norte/Sul" by `get_main_direction` (sections/streets, `>=`), while a jam
whose net displacement satisfies `|delta_x| = |delta_y|` gets major
direction "Leste/Oeste" from `get_direction` (strict `>`): opposite axes
on the tie. -/
theorem tie_break_asymmetry :
    (∀ minX maxX minY maxY : ℚ, maxX - minX = maxY - minY →
      get_main_direction minX maxX minY maxY = "Norte/Sul") ∧
    (∀ (a b : Coord) (mid : List Coord), |b.y - a.y| = |b.x - a.x| →
      majorOf (get_direction (some (a :: (mid ++ [b])))) = some "Leste/Oeste") := by
  constructor
  · intro minX maxX minY maxY h
    simp [get_main_direction, h.symm]
  · intro a b mid h
    rw [get_direction_eq]
    simp [majorOf, h]

/-- Closed witness for `tie_break_asymmetry` at concrete inputs. -/
theorem tie_break_asymmetry_witness :
    get_main_direction 0 5 0 5 = "Norte/Sul" ∧
    majorOf (get_direction (some ((⟨0, 0⟩ : Coord) :: ([] ++ [(⟨3, 3⟩ : Coord)])))) =
      some "Leste/Oeste" :=
  ⟨tie_break_asymmetry.1 0 5 0 5 (by norm_num),
   tie_break_asymmetry.2 ⟨0, 0⟩ ⟨3, 3⟩ [] (by norm_num)⟩

end DirectionTheorems

section PipelineLemmas

/-- Membership in a nested spatial-join iteration: a pair is produced
exactly when both components are in their frames and the predicate
holds. -/
theorem mem_crossFilter {α β : Type} {jams : List α} {secs : List β}
    {p : α → β → Bool} {a : α} {b : β} :
    ((a, b) ∈ jams.flatMap fun j => secs.filterMap fun s =>
        if p j s then some (j, s) else none) ↔
      a ∈ jams ∧ b ∈ secs ∧ p a b = true := by
  simp only [List.mem_flatMap, List.mem_filterMap]
  constructor
  · rintro ⟨j, hj, s, hs, h⟩
    by_cases hp : p j s
    · rw [if_pos hp] at h
      obtain ⟨rfl, rfl⟩ := Prod.mk.injEq .. ▸ Option.some.injEq .. ▸ h
      exact ⟨hj, hs, hp⟩
    · rw [if_neg hp] at h
      exact absurd h (Option.noConfusion)
  · rintro ⟨ha, hb, hp⟩
    exact ⟨a, ha, b, hb, by rw [if_pos hp]⟩

/-- Unfolded membership for the Tier A join. -/
theorem mem_contains_iff {P : GeoPredicates} {jams : List GeoJam}
    {secs : List GeoSection} {j : GeoJam} {s : GeoSection} :
    (j, s) ∈ jams_per_section_contains P jams secs ↔
      j ∈ jams ∧ s ∈ secs ∧ P.contains j.jam_LineString s.section_LineString = true := by
  unfold jams_per_section_contains
  exact mem_crossFilter

/-- Under distinct jam ids, the `.isin(ids_not_located_contains)` slice is
exactly the jams with no Tier A match. -/
theorem jams_left_from_contains_eq {P : GeoPredicates} {jams : List GeoJam}
    {secs : List GeoSection} (hN : (jams.map GeoJam.JamId).Nodup) :
    jams_left_from_contains P jams secs = jams.filter (noAmatch P secs) := by
  unfold jams_left_from_contains ids_not_located_contains
  apply List.filter_congr
  intro j hj
  cases hA : noAmatch P secs j with
  | true =>
    simp only [decide_eq_true_eq]
    exact List.mem_map.2 ⟨j, List.mem_filter.2 ⟨hj, hA⟩, rfl⟩
  | false =>
    apply decide_eq_false
    rintro hmem
    obtain ⟨j', hj', hid⟩ := List.mem_map.1 hmem
    obtain ⟨hj'mem, hj'no⟩ := List.mem_filter.1 hj'
    have heq : j' = j := List.inj_on_of_nodup_map hN hj'mem hj hid
    subst heq
    have hno : noAmatch P secs j' = true := hj'no
    rw [hA] at hno
    exact Bool.false_ne_true hno

/-- Under distinct jam ids, the `.isin(ids_not_located_within)` slice of
`geo_jams` is exactly the jams with neither a Tier A nor a Tier B
match. -/
theorem jams_left_from_within_eq {P : GeoPredicates} {jams : List GeoJam}
    {secs : List GeoSection} (hN : (jams.map GeoJam.JamId).Nodup) :
    jams_left_from_within P jams secs =
      jams.filter fun j => noAmatch P secs j && noBmatch P secs j := by
  unfold jams_left_from_within ids_not_located_within
  rw [jams_left_from_contains_eq hN]
  apply List.filter_congr
  intro j hj
  cases hAB : noAmatch P secs j && noBmatch P secs j with
  | true =>
    have hA : noAmatch P secs j = true := (Bool.and_eq_true_iff.1 hAB).1
    have hB : noBmatch P secs j = true := (Bool.and_eq_true_iff.1 hAB).2
    simp only [decide_eq_true_eq]
    exact List.mem_map.2 ⟨j, List.mem_filter.2 ⟨List.mem_filter.2 ⟨hj, hA⟩, hB⟩, rfl⟩
  | false =>
    apply decide_eq_false
    rintro hmem
    obtain ⟨j', hj', hid⟩ := List.mem_map.1 hmem
    obtain ⟨hj'f, hj'noB⟩ := List.mem_filter.1 hj'
    obtain ⟨hj'mem, hj'noA⟩ := List.mem_filter.1 hj'f
    have heq : j' = j := List.inj_on_of_nodup_map hN hj'mem hj hid
    subst heq
    have hnoB : noBmatch P secs j' = true := hj'noB
    rw [hj'noA, hnoB] at hAB
    exact Bool.false_ne_true hAB.symm

end PipelineLemmas

section TierATheorems

/-- Claim C1 (counterexample): the claim "a (jam, section) pair is
accepted in Tier A iff the section's thin buffer contains the jam's fat
buffer" fails: with a long jam whose fat (radius-20) buffer contains a
short section's thin (radius-10) buffer — while the section's thin buffer
certainly does not contain the jam's fat buffer — the pair IS accepted
(`gpd.sjoin(geo_jams, geo_sections, op="contains")` tests the LEFT frame's
geometry, the jam's, against the section's, as the source comment "Find
jams that contain sections entirely" states). -/
theorem tierA_containment_direction_counterexample :
    jams_per_section_contains P_A [jamA] (extract_geo_sections [secRowA] 10 20) =
      [(jamA, secA)] ∧
    P_A.contains secA.section_LineString jamA.jam_LineString = false := by
  constructor
  · norm_num [jams_per_section_contains, extract_geo_sections, streetDirection,
      sectionDirection, get_main_direction, sectionMinX, sectionMaxX, sectionMinY,
      sectionMaxY, min_def, max_def, List.filter, street_line_XY, secRowA, secA,
      P_A, jamA, mkGeoJam, jamRowA, lon_lat_to_UTM, List.filterMap_cons,
      Prod.mk.injEq, Coord.mk.injEq]
  · norm_num [P_A, secA, jamA, mkGeoJam, jamRowA, lon_lat_to_UTM, Coord.mk.injEq]

/-- Claim C1 (amended, proved): in Tier A a (jam, section) pair is
accepted iff the JAM's fat buffer (`jam_LineString`, built with
`main_buffer=20` at source line 175) geometrically contains the SECTION's
thin buffer (`section_LineString`, built with `main_buffer=10` at source
line 167) — the containment direction is jam-contains-section, opposite
to the spec sentence. -/
theorem tierA_contains_iff (P : GeoPredicates) (proj : Coord → Coord)
    (jamRows : List JamRow) (sectionRows : List SectionRow)
    (skip limit : Nat) (j : GeoJam) (s : GeoSection) :
    (j, s) ∈ jams_per_section_contains P
        (extract_geo_jams proj jamRows skip limit 20 10)
        (extract_geo_sections sectionRows 10 20) ↔
      j ∈ extract_geo_jams proj jamRows skip limit 20 10 ∧
      s ∈ extract_geo_sections sectionRows 10 20 ∧
      j.jam_LineString.2 = 20 ∧ s.section_LineString.2 = 10 ∧
      P.contains j.jam_LineString s.section_LineString = true := by
  rw [mem_contains_iff]
  constructor
  · rintro ⟨hj, hs, hP⟩
    refine ⟨hj, hs, ?_, ?_, hP⟩
    · obtain ⟨r, _, rfl⟩ := List.mem_map.1 hj
      rfl
    · obtain ⟨r, _, rfl⟩ := List.mem_map.1 hs
      rfl
  · rintro ⟨hj, hs, _, _, hP⟩
    exact ⟨hj, hs, hP⟩

end TierATheorems

section TierBTheorems

/-- Tier B membership over arbitrary frames: given distinct jam ids, a
jam of the page with no Tier A match is paired with a section exactly when
the `within` predicate holds on (`jam_alt_LineString`,
`section_alt_LineString`). -/
theorem mem_within_iff_general {P : GeoPredicates} {jams : List GeoJam}
    {secs : List GeoSection} {j : GeoJam} {s : GeoSection}
    (hN : (jams.map GeoJam.JamId).Nodup) (hj : j ∈ jams)
    (hA : ∀ s' ∈ secs, P.contains j.jam_LineString s'.section_LineString = false)
    (hs : s ∈ secs) :
    (j, s) ∈ jams_per_section_within P jams secs ↔
      P.within j.jam_alt_LineString s.section_alt_LineString = true := by
  have hAmatch : noAmatch P secs j = true := by
    unfold noAmatch
    rw [List.all_eq_true]
    intro s' hs'
    rw [hA s' hs']
    rfl
  unfold jams_per_section_within
  rw [jams_left_from_contains_eq hN, mem_crossFilter]
  constructor
  · rintro ⟨_, _, h⟩
    exact h
  · intro h
    exact ⟨List.mem_filter.2 ⟨hj, hAmatch⟩, hs, h⟩

/-- Claim C6 (confirmed): in Tier B, for every jam of the page left
unmatched by Tier A and every section, the pair is accepted iff the jam's
thin buffer (`jam_alt_LineString`, radius 10 per the `alt_buffer=10` of
source line 175) lies within the section's fat buffer
(`section_alt_LineString`, radius 20 per the `alt_buffer=20` of source
line 167).  The distinct-ids hypothesis reflects that `JamId` is the
primary key of the `Jam` table. -/
theorem tierB_within_iff (P : GeoPredicates) (proj : Coord → Coord)
    (jamRows : List JamRow) (sectionRows : List SectionRow)
    (skip limit : Nat) (j : GeoJam) (s : GeoSection)
    (hN : ((extract_geo_jams proj jamRows skip limit 20 10).map GeoJam.JamId).Nodup)
    (hj : j ∈ extract_geo_jams proj jamRows skip limit 20 10)
    (hA : ∀ s' ∈ extract_geo_sections sectionRows 10 20,
      P.contains j.jam_LineString s'.section_LineString = false)
    (hs : s ∈ extract_geo_sections sectionRows 10 20) :
    ((j, s) ∈ jams_per_section_within P
        (extract_geo_jams proj jamRows skip limit 20 10)
        (extract_geo_sections sectionRows 10 20) ↔
      P.within j.jam_alt_LineString s.section_alt_LineString = true) ∧
    j.jam_alt_LineString.2 = 10 ∧ s.section_alt_LineString.2 = 20 := by
  refine ⟨mem_within_iff_general hN hj hA hs, ?_, ?_⟩
  · obtain ⟨r, _, rfl⟩ := List.mem_map.1 hj
    rfl
  · obtain ⟨r, _, rfl⟩ := List.mem_map.1 hs
    rfl

/-- Closed witness for `tierB_within_iff`: the one-jam one-section layout
of `jamRowB` / `secRowB` under the valuation `P_B`, with the page loaded
through `extract_geo_jams` (skip 0, limit 1). -/
theorem tierB_within_iff_witness :
    ((jamB, secB) ∈ jams_per_section_within P_B
        (extract_geo_jams id [jamRowB] 0 1 20 10)
        (extract_geo_sections [secRowB] 10 20) ↔
      P_B.within jamB.jam_alt_LineString secB.section_alt_LineString = true) ∧
    jamB.jam_alt_LineString.2 = 10 ∧ secB.section_alt_LineString.2 = 20 := by
  have hsec : extract_geo_sections [secRowB] 10 20 = [secB] := by
    norm_num [extract_geo_sections, streetDirection, sectionDirection,
      get_main_direction, sectionMinX, sectionMaxX, sectionMinY, sectionMaxY,
      min_def, max_def, List.filter, street_line_XY, secRowB, secB]
  have hjam : extract_geo_jams id [jamRowB] 0 1 20 10 = [jamB] := by
    simp [extract_geo_jams, sortJams, List.mergeSort_singleton, jamB]
  exact tierB_within_iff P_B id [jamRowB] [secRowB] 0 1 jamB secB
    (by rw [hjam]; simp)
    (by rw [hjam]; simp)
    (by rw [hsec]; intro s' hs'; simp at hs'; subst hs'; rfl)
    (by rw [hsec]; simp)

end TierBTheorems

section TierPartitionTheorems

/-- Claim C4 (confirmed): within one batch, the tiers partition the jams:
a jam accepted against some section in Tier A is absent from the Tier B
pool (`jams_left_from_contains`) and from the Tier C pool
(`jams_left_from_within`); a jam accepted in Tier B is absent from the
Tier C pool; and acceptance is per (jam, section) pair, so one jam is
accepted against every section satisfying the tier predicate (several are
possible).  Distinct ids reflect the `Jam` primary key. -/
theorem tier_partition (P : GeoPredicates) (jams : List GeoJam)
    (secs : List GeoSection) (hN : (jams.map GeoJam.JamId).Nodup) :
    (∀ j s, (j, s) ∈ jams_per_section_contains P jams secs →
      j ∉ jams_left_from_contains P jams secs ∧
      j ∉ jams_left_from_within P jams secs) ∧
    (∀ j s, (j, s) ∈ jams_per_section_within P jams secs →
      j ∉ jams_left_from_within P jams secs) ∧
    (∀ j s₁ s₂, j ∈ jams → s₁ ∈ secs → s₂ ∈ secs →
      P.contains j.jam_LineString s₁.section_LineString = true →
      P.contains j.jam_LineString s₂.section_LineString = true →
      (j, s₁) ∈ jams_per_section_contains P jams secs ∧
      (j, s₂) ∈ jams_per_section_contains P jams secs) := by
  refine ⟨?_, ?_, ?_⟩
  · intro j s hjs
    obtain ⟨hj, hs, hP⟩ := mem_contains_iff.1 hjs
    have hnoA : noAmatch P secs j = false := by
      unfold noAmatch
      rw [List.all_eq_false]
      exact ⟨s, hs, by rw [hP]; simp⟩
    constructor
    · rw [jams_left_from_contains_eq hN]
      intro hmem
      have htrue := (List.mem_filter.1 hmem).2
      rw [hnoA] at htrue
      exact Bool.false_ne_true htrue
    · rw [jams_left_from_within_eq hN]
      intro hmem
      have hand := (List.mem_filter.1 hmem).2
      rw [hnoA] at hand
      exact Bool.false_ne_true hand
  · intro j s hjs
    unfold jams_per_section_within at hjs
    rw [jams_left_from_contains_eq hN, mem_crossFilter] at hjs
    obtain ⟨hjf, hs, hP⟩ := hjs
    have hnoB : noBmatch P secs j = false := by
      unfold noBmatch
      rw [List.all_eq_false]
      exact ⟨s, hs, by rw [hP]; simp⟩
    rw [jams_left_from_within_eq hN]
    intro hmem
    have hand := (List.mem_filter.1 hmem).2
    rw [hnoB, Bool.and_false] at hand
    exact Bool.false_ne_true hand
  · intro j s₁ s₂ hj hs₁ hs₂ h₁ h₂
    exact ⟨mem_contains_iff.2 ⟨hj, hs₁, h₁⟩, mem_contains_iff.2 ⟨hj, hs₂, h₂⟩⟩

/-- Closed witness for `tier_partition`: the jam `jamW` is accepted in
Tier A against both `secW1` and `secW2` under `P_W` and is absent from
both later-tier pools. -/
theorem tier_partition_witness :
    (jamW, secW1) ∈ jams_per_section_contains P_W [jamW] [secW1, secW2] ∧
    (jamW, secW2) ∈ jams_per_section_contains P_W [jamW] [secW1, secW2] ∧
    jamW ∉ jams_left_from_contains P_W [jamW] [secW1, secW2] ∧
    jamW ∉ jams_left_from_within P_W [jamW] [secW1, secW2] := by
  have h := tier_partition P_W [jamW] [secW1, secW2] (by simp)
  have hmem : (jamW, secW1) ∈ jams_per_section_contains P_W [jamW] [secW1, secW2] ∧
      (jamW, secW2) ∈ jams_per_section_contains P_W [jamW] [secW1, secW2] :=
    h.2.2 jamW secW1 secW2 (by simp) (by simp) (by simp) rfl rfl
  exact ⟨hmem.1, hmem.2, (h.1 jamW secW1 hmem.1).1, (h.1 jamW secW1 hmem.1).2⟩

end TierPartitionTheorems

section TierCTheorems

/-- Claim C5 (code bug, evaluated at the failing input): Tier C evaluates
the intersection on the jam's FAT buffer — `jams_left_from_within` is
sliced from `geo_jams`, whose active geometry is `jam_LineString`, built
with `main_buffer=20` — although the source's own comment at line 193
says "Both polygons should be thin".  Concretely: under the realizable
valuation `P_C` (jam parallel to the section at distance 25, radii as
noted at `P_C`), the thin buffers do NOT intersect, the directions agree,
and the pair is nevertheless retained by Tier C. -/
theorem tierC_fat_buffer_eval :
    extract_geo_sections [secRowC] 10 20 = [secC] ∧
    jams_per_section_intersects P_C [jamC] [secC] = [(jamC, secC)] ∧
    P_C.intersects jamC.jam_alt_LineString secC.section_LineString = false ∧
    P_C.intersects jamC.jam_LineString secC.section_LineString = true ∧
    jamC.jam_alt_LineString.2 = 10 ∧ jamC.jam_LineString.2 = 20 ∧
    check_directions jamC.MajorDirection secC.StreetDirection secC.SectionDirection = true := by
  have hmaj : majorOf (get_direction (some [(⟨25, -50⟩ : Coord), ⟨25, 50⟩])) =
      some "Norte/Sul" := by
    rw [show ([⟨25, -50⟩, ⟨25, 50⟩] : List Coord) =
      (⟨25, -50⟩ : Coord) :: ([] ++ [(⟨25, 50⟩ : Coord)]) from rfl, get_direction_eq]
    norm_num [majorOf]
  refine ⟨?_, ?_, ?_, ?_, rfl, rfl, ?_⟩
  · norm_num [extract_geo_sections, streetDirection, sectionDirection,
      get_main_direction, sectionMinX, sectionMaxX, sectionMinY, sectionMaxY,
      min_def, max_def, List.filter, street_line_XY, secRowC, secC]
  · norm_num [jams_per_section_intersects, jams_left_from_within,
      ids_not_located_within, jams_left_from_contains, ids_not_located_contains,
      P_C, List.filter, List.filterMap_cons, check_directions, hmaj, secC,
      jamC, mkGeoJam, jamRowC, lon_lat_to_UTM, noAmatch, noBmatch]
  · norm_num [P_C, jamC, mkGeoJam, jamRowC, lon_lat_to_UTM, secC, Prod.mk.injEq]
  · norm_num [P_C]
  · show check_directions
      (majorOf (get_direction (some [(⟨25, -50⟩ : Coord), ⟨25, 50⟩])))
      "Norte/Sul" "Norte/Sul" = true
    rw [hmaj]
    simp [check_directions]

end TierCTheorems

section PaginationLemmas

/-- Filtering distributes over a flat map. -/
theorem filter_flatMap_dist {α β : Type} (l : List α) (f : α → List β) (q : β → Bool) :
    (l.flatMap f).filter q = l.flatMap fun x => (f x).filter q := by
  induction l with
  | nil => rfl
  | cons a t ih => simp only [List.flatMap_cons, List.filter_append, ih]

/-- A flat map over a filtered list is a flat map with an emptied-out
branch. -/
theorem filter_then_flatMap {α β : Type} (l : List α) (p : α → Bool) (f : α → List β) :
    (l.filter p).flatMap f = l.flatMap fun x => if p x then f x else [] := by
  induction l with
  | nil => rfl
  | cons a t ih =>
    cases h : p a with
    | true => simp [List.filter_cons, h, List.flatMap_cons, ih]
    | false => simp [List.filter_cons, h, List.flatMap_cons, ih]

/-- Two flat maps over the same list merge, up to permutation, into a flat
map of pointwise concatenations. -/
theorem flatMap_append_perm {α β : Type} (l : List α) (f g : α → List β) :
    (l.flatMap f ++ l.flatMap g).Perm (l.flatMap fun x => f x ++ g x) := by
  induction l with
  | nil => simp
  | cons a t ih =>
    simp only [List.flatMap_cons, List.append_assoc]
    have h1 : ((t.flatMap f) ++ ((g a) ++ (t.flatMap g))).Perm
        ((g a) ++ ((t.flatMap f) ++ (t.flatMap g))) :=
      List.perm_append_comm_assoc _ _ _
    exact List.Perm.append_left (f a)
      (h1.trans (List.Perm.append_left (g a) ih))

/-- Pointwise permutations lift to flat maps. -/
theorem flatMap_congr_perm {α β : Type} {f g : α → List β} (l : List α)
    (h : ∀ x ∈ l, (f x).Perm (g x)) : (l.flatMap f).Perm (l.flatMap g) := by
  induction l with
  | nil => rfl
  | cons a t ih =>
    simp only [List.flatMap_cons]
    exact (h a (by simp)).append (ih fun x hx => h x (by simp [hx]))

/-- Peeling one page off the batch count (source line 171's
`math.ceil(total_rows / batch_size)`). -/
theorem number_batches_succ (b : Nat) (hb : 1 ≤ b) (n : Nat) (hn : 1 ≤ n) :
    number_batches n b = number_batches (n - b) b + 1 := by
  unfold number_batches
  have h3 : n + b - 1 = (n - 1) + b := by omega
  rw [h3, Nat.add_div_right _ (by omega)]
  rcases Nat.lt_or_ge n (b + 1) with h | h
  · have h1 : n - b = 0 := by omega
    rw [h1, Nat.div_eq_of_lt (by omega), Nat.div_eq_of_lt (by omega)]
  · have h5 : n - b + b - 1 = (n - b - 1) + b := by omega
    rw [h5, Nat.add_div_right _ (by omega)]
    have h6 : n - 1 = (n - b - 1) + b := by omega
    rw [h6, Nat.add_div_right _ (by omega)]

/-- Concatenating the offset/limit pages of source line 175 recovers the
whole (sorted) dataset: no row is lost or duplicated by page
boundaries. -/
theorem chunks_flatten {α : Type} (b : Nat) (hb : 1 ≤ b) :
    ∀ (k : Nat) (l : List α), number_batches l.length b = k →
      ((List.range k).flatMap fun i => (l.drop (i * b)).take b) = l := by
  intro k
  induction k with
  | zero =>
    intro l hl
    unfold number_batches at hl
    have hz : l.length = 0 := by
      by_contra h
      have h2 : b ≤ l.length + b - 1 := by omega
      have h3 : l.length + b - 1 < b := by
        by_contra h4
        have := Nat.div_le_div_right (c := b) (Nat.le_of_not_lt h4)
        rw [Nat.div_self (by omega), hl] at this
        omega
      omega
    rw [List.length_eq_zero.1 hz]
    rfl
  | succ k ih =>
    intro l hl
    have hlen : 1 ≤ l.length := by
      by_contra h
      have hz : l.length = 0 := by omega
      rw [hz] at hl
      unfold number_batches at hl
      rw [Nat.div_eq_of_lt (by omega)] at hl
      omega
    have hk : number_batches (l.drop b).length b = k := by
      rw [List.length_drop]
      have := number_batches_succ b hb l.length hlen
      omega
    have hrest := ih (l.drop b) hk
    rw [List.range_succ_eq_map, List.flatMap_cons, Nat.zero_mul, List.drop_zero,
      List.flatMap_map]
    have hfun : (fun i => (l.drop (Nat.succ i * b)).take b) =
        fun i => ((l.drop b).drop (i * b)).take b := by
      funext i
      rw [List.drop_drop, Nat.succ_mul, Nat.add_comm]
    rw [show (fun a => (l.drop (Nat.succ a * b)).take b) =
      fun i => ((l.drop b).drop (i * b)).take b from hfun, hrest]
    exact List.take_append_drop b l

end PaginationLemmas

section PaginationTheorems

/-- The batch body is, up to output order, the concatenation of
independent per-jam contributions: which rows a jam produces depends only
on that jam and the (fixed) section set.  This is the heart of page
invariance. -/
theorem store_batch_perm_perJam (P : GeoPredicates) (secs : List GeoSection)
    (jams : List GeoJam) (hN : (jams.map GeoJam.JamId).Nodup) :
    (store_batch P jams secs).Perm (jams.flatMap (perJam P secs)) := by
  have hB : jams_per_section_within P jams secs =
      jams.flatMap fun j =>
        if noAmatch P secs j then
          secs.filterMap fun s =>
            if P.within j.jam_alt_LineString s.section_alt_LineString then some (j, s)
            else none
        else [] := by
    unfold jams_per_section_within
    rw [jams_left_from_contains_eq hN, filter_then_flatMap]
  have hC : jams_per_section_intersects P jams secs =
      jams.flatMap fun j =>
        if noAmatch P secs j && noBmatch P secs j then
          (secs.filterMap fun s =>
            if P.intersects j.jam_LineString s.section_LineString then some (j, s)
            else none).filter fun js =>
              check_directions js.1.MajorDirection js.2.StreetDirection js.2.SectionDirection
        else [] := by
    unfold jams_per_section_intersects
    rw [jams_left_from_within_eq hN, filter_then_flatMap, filter_flatMap_dist]
    congr 1
    funext j
    by_cases h : noAmatch P secs j && noBmatch P secs j
    · rw [if_pos h, if_pos h]
    · rw [if_neg h, if_neg h]
      rfl
  unfold store_batch jams_per_section_contains
  rw [hB, hC, List.map_append, List.map_append, List.map_flatMap, List.map_flatMap,
    List.map_flatMap]
  have hperJam : jams.flatMap (perJam P secs) = jams.flatMap fun j =>
      ((secs.filterMap fun s =>
        if P.contains j.jam_LineString s.section_LineString then some (j, s)
        else none).map toJamPerSection) ++
      (((if noAmatch P secs j then
          secs.filterMap fun s =>
            if P.within j.jam_alt_LineString s.section_alt_LineString then some (j, s)
            else none
        else []).map toJamPerSection) ++
      ((if noAmatch P secs j && noBmatch P secs j then
          (secs.filterMap fun s =>
            if P.intersects j.jam_LineString s.section_LineString then some (j, s)
            else none).filter fun js =>
              check_directions js.1.MajorDirection js.2.StreetDirection js.2.SectionDirection
        else []).map toJamPerSection)) := by
    unfold perJam perJamPairs
    simp only [List.map_append, List.append_assoc]
  rw [hperJam, List.append_assoc]
  refine List.Perm.trans
    ((List.Perm.refl _).append (flatMap_append_perm jams _ _)) ?_
  exact flatMap_append_perm jams _ _

/-- Whole-run normal form: for any page size ≥ 1, `store_jps` is a
permutation of the per-jam contributions over the full sorted dataset —
the page structure cancels out. -/
theorem store_jps_perm_flat (P : GeoPredicates) (proj : Coord → Coord)
    (sectionRows : List SectionRow) (jamRows : List JamRow)
    (b : Nat) (hb : 1 ≤ b) (hN : (jamRows.map JamRow.JamId).Nodup) :
    (store_jps P proj sectionRows jamRows b).Perm
      (((sortJams jamRows).map (mkGeoJam proj 20 10)).flatMap
        (perJam P (extract_geo_sections sectionRows 10 20))) := by
  have hchunk : ∀ i : Nat, extract_geo_jams proj jamRows (i * b) b 20 10 =
      (((sortJams jamRows).map (mkGeoJam proj 20 10)).drop (i * b)).take b := by
    intro i
    unfold extract_geo_jams
    rw [List.map_take, List.map_drop]
  have hLen : jamRows.length = ((sortJams jamRows).map (mkGeoJam proj 20 10)).length := by
    rw [List.length_map]
    unfold sortJams
    rw [List.length_mergeSort]
  have hLN : (((sortJams jamRows).map (mkGeoJam proj 20 10)).map GeoJam.JamId).Nodup := by
    rw [List.map_map]
    have hid : (GeoJam.JamId ∘ mkGeoJam proj 20 10) = JamRow.JamId := rfl
    rw [hid]
    have hperm : (sortJams jamRows).Perm jamRows := List.mergeSort_perm _ _
    exact ((hperm.map JamRow.JamId).symm).nodup hN
  have hCN : ∀ i : Nat,
      (((((sortJams jamRows).map (mkGeoJam proj 20 10)).drop (i * b)).take b).map
        GeoJam.JamId).Nodup := by
    intro i
    refine List.Nodup.sublist ?_ hLN
    exact ((List.take_sublist _ _).trans (List.drop_sublist _ _)).map _
  show (((List.range (number_batches jamRows.length b)).flatMap fun i =>
      store_batch P (extract_geo_jams proj jamRows (i * b) b 20 10)
        (extract_geo_sections sectionRows 10 20))).Perm _
  rw [hLen]
  have step1 : ((List.range
      (number_batches (((sortJams jamRows).map (mkGeoJam proj 20 10)).length) b)).flatMap
        fun i => store_batch P (extract_geo_jams proj jamRows (i * b) b 20 10)
          (extract_geo_sections sectionRows 10 20)).Perm
      ((List.range
        (number_batches (((sortJams jamRows).map (mkGeoJam proj 20 10)).length) b)).flatMap
        fun i => ((((sortJams jamRows).map (mkGeoJam proj 20 10)).drop (i * b)).take b).flatMap
          (perJam P (extract_geo_sections sectionRows 10 20))) :=
    flatMap_congr_perm _ fun i hi => by
      rw [hchunk i]
      exact store_batch_perm_perJam P _ _ (hCN i)
  refine step1.trans ?_
  rw [← List.flatMap_assoc, chunks_flatten b hb _ _ rfl]

/-- Claim C8 (confirmed): for a fixed section set and a fixed jam dataset
(with jam ids distinct, as `JamId` is the `Jam` table's key, and every jam
carrying at least two coordinates, without which geometry building aborts
the run), running `store_jps` with any two page sizes ≥ 1 — e.g. pages of
size 2 versus one page holding the whole dataset — produces the same
multiset of (JamDateStart, JamUuid, SctnId) output rows: nothing is lost
or duplicated at page boundaries. -/
theorem store_jps_pagination_invariant (P : GeoPredicates) (proj : Coord → Coord)
    (sectionRows : List SectionRow) (jamRows : List JamRow)
    (hN : (jamRows.map JamRow.JamId).Nodup)
    (_hValid : ∀ r ∈ jamRows, 2 ≤ r.JamDscCoordinatesLonLat.length)
    (b₁ b₂ : Nat) (hb₁ : 1 ≤ b₁) (hb₂ : 1 ≤ b₂) :
    (store_jps P proj sectionRows jamRows b₁).Perm
      (store_jps P proj sectionRows jamRows b₂) :=
  (store_jps_perm_flat P proj sectionRows jamRows b₁ hb₁ hN).trans
    (store_jps_perm_flat P proj sectionRows jamRows b₂ hb₂ hN).symm

/-- Closed witness for `store_jps_pagination_invariant`: three jams and
one section, pages of size 2 versus a single page of size 3. -/
theorem store_jps_pagination_invariant_witness :
    (store_jps P_W id [secRowP] [jamRowP1, jamRowP2, jamRowP3] 2).Perm
      (store_jps P_W id [secRowP] [jamRowP1, jamRowP2, jamRowP3] 3) :=
  store_jps_pagination_invariant P_W id [secRowP] [jamRowP1, jamRowP2, jamRowP3]
    (by decide)
    (by intro r hr; fin_cases hr <;> decide)
    2 3 (by decide) (by decide)

end PaginationTheorems

end Joinville
